import Mathlib

/-!
# raildash backend (`server.js`): certificate generation handlers

A shallow embedding of the two POST handlers of `server.js`
(`/api/generate-pdf` and `/api/generate-qr`) together with the pieces of the
environment they read.  Library calls whose results the handlers only pass
along (the QR encoder, base64 decoding, image parsing, locale date formatting,
the clock) are fields of `World`; the uploads directory is an explicit store
that is threaded through each handler.
-/

namespace Raildash

/-! ## JavaScript values that occur in the handlers -/

/-- Rendering of a request field inside a template literal: an absent field is
the value undefined and prints as the word "undefined". -/
def jsStr : Option String → String
  | some s => s
  | none => "undefined"

/-- Truthiness of a request field as tested by `if (field)`: an absent field and
the empty string are falsy, every other string is truthy. -/
def truthy : Option String → Bool
  | some s => decide (s ≠ "")
  | none => false

/-- The operator `a || d` on an environment variable: the default is taken
when the variable is unset or empty. -/
def orDefault (a : Option String) (d : String) : String :=
  match a with
  | some s => if s = "" then d else s
  | none => d

/-! ## Process environment (lines 9-10 and 58-60) -/

/-- The environment variables read by the server. -/
structure Env where
  NODE_ENV : Option String
  PORT : Option String
  RENDER_EXTERNAL_HOSTNAME : Option String
deriving DecidableEq, Repr

/-- Line 9: `process.env.PORT || 5000`, as it prints in a template literal. -/
def PORT (env : Env) : String := orDefault env.PORT "5000"

/-- Line 10: the listen address. -/
def HOST (env : Env) : String :=
  if env.NODE_ENV = some "production" then "0.0.0.0" else "10.3.104.75"

/-- Lines 58-60: the base URL, chosen inside the handler from the environment. -/
def baseUrl (env : Env) : String :=
  if env.NODE_ENV = some "production" then
    "https://" ++ orDefault env.RENDER_EXTERNAL_HOSTNAME "raildash.onrender.com"
  else
    "http://" ++ HOST env ++ ":" ++ PORT env

/-! ## External collaborators -/

/-- The colour option of the QR encoder. -/
structure QRColor where
  dark : String
  light : String
deriving DecidableEq, Repr

/-- The options object passed to `QRCode.toDataURL`. -/
structure QROptions where
  width : Nat
  margin : Nat
  color : Option QRColor
deriving DecidableEq, Repr

/-- Everything the handlers obtain from libraries and from the machine. -/
structure World where
  /-- The call `QRCode.toDataURL(text, opts)`: the data URL, or the message of
  the rejection.  The text is optional because `/api/generate-qr` passes the body
  field as it came. -/
  toDataURL : Option String → QROptions → Except String String
  /-- The call `Buffer.from(s, "base64")`. -/
  base64 : String → List Nat
  /-- The message of the TypeError thrown by `Buffer.from(undefined, "base64")`. -/
  bufferTypeError : String
  /-- The message thrown by `doc.image` on a buffer it cannot read, if any. -/
  imageError : List Nat → Option String
  /-- The value of `new Date(s).toLocaleDateString()`. -/
  toLocaleDateString : String → String
  /-- The value of `new Date().toLocaleString()` at the time of the request. -/
  nowLocaleString : String
  /-- Whether the write stream reaches its finish event. -/
  streamFinishes : Bool
  /-- The value of `new Date(n).toLocaleDateString()` for the number that prints
  as the given text. -/
  numberDate : String → String
  /-- The message of the TypeError thrown when `req.body` is undefined and its
  properties are destructured. -/
  bodyTypeError : String

/-! ## Documents -/

/-- The options of `doc.text` used by the handler. -/
inductive TextOpt
  | plain
  | alignCenter
  | underline
  | continued
deriving DecidableEq, Repr

/-- One call on the PDF document.  `moveDown` counts half lines (the source
uses 0.5, 1 and 1.5 lines); image coordinates are hundredths of a point. -/
inductive DocOp
  | newDocument (size : String) (top bottom left right : Nat)
  | fontSize (pt : Nat)
  | text (s : String) (opt : TextOpt)
  | moveDown (halfLines : Nat)
  | image (buf : List Nat) (x y width height : Nat)
deriving DecidableEq, Repr

/-- Width of an A4 page in hundredths of a point (595.28pt). -/
def a4Width : Nat := 59528

/-! ## Paths and the uploads store -/

/-- A normalised absolute path, as its list of segments. -/
abbrev Path := List String

/-- Split a character list at every occurrence of `sep`. -/
def splitChar (sep : Char) : List Char → List (List Char)
  | [] => [[]]
  | c :: cs =>
    if c = sep then [] :: splitChar sep cs
    else
      match splitChar sep cs with
      | [] => [[c]]
      | s :: ss => (c :: s) :: ss

/-- One step of path normalisation: empty and "." segments are dropped, ".."
removes the last segment, anything else is appended. -/
def pushSegment (stack : Path) (seg : String) : Path :=
  if seg = "" ∨ seg = "." then stack
  else if seg = ".." then stack.dropLast
  else stack ++ [seg]

/-- The call `path.join(dir, name)` for an absolute normalised `dir`. -/
def pathJoin (dir : Path) (name : String) : Path :=
  ((splitChar '/' name.data).map String.mk).foldl pushSegment dir

/-- Line 23: `path.join(__dirname, "uploads")`. -/
def uploadsDir (dirname : Path) : Path := pathJoin dirname "uploads"

/-- A file of the store: the document calls that reached it, and whether the
document was ended and the stream finished. -/
structure File where
  ops : List DocOp
  ended : Bool
deriving DecidableEq, Repr

/-- The file system, as far as the handlers can touch it. -/
abbrev Store := Path → Option File

/-- The call `fs.createWriteStream(p)` followed by piping: the file at `p` is created
or truncated and holds what the document has produced. -/
def writeFile (fs : Store) (p : Path) (f : File) : Store :=
  fun q => if q = p then some f else fs q

/-! ## Requests and responses -/

/-- The body of `POST /api/generate-pdf`. -/
structure PdfRequest where
  vendorName : Option String
  lotNumber : Option String
  itemType : Option String
  manufactureDate : Option String
  supplyDate : Option String
  warrantyPeriod : Option String
deriving DecidableEq, Repr

/-- The body of `POST /api/generate-qr`. -/
structure QrRequest where
  pdfUrl : Option String
deriving DecidableEq, Repr

/-- The JSON bodies the handlers send. -/
inductive Body
  | pdfOk (filename filepath : String) (timestamp : Int) (fullUrl : String)
  | qrOk (qrCode : String) (pdfUrl : Option String)
  | failure (error : String)
deriving DecidableEq, Repr

/-- The `success` field of a body. -/
def Body.success : Body → Bool
  | .pdfOk _ _ _ _ => true
  | .qrOk _ _ => true
  | .failure _ => false

/-- A response: status code and JSON body. -/
structure Response where
  status : Nat
  body : Body
deriving DecidableEq, Repr

/-- What a handler leaves behind: the response (none when nothing is ever sent),
the store, and the calls it made to the encoder (payload and options). -/
structure Outcome where
  response : Option Response
  store : Store
  encoderCalls : List (Option String × QROptions)

/-! ## `POST /api/generate-pdf` (lines 29-116) -/

/-- Line 46: the artifact name.  `timestamp` is the integer read from
`Date.now()`; a template literal prints such an integer in plain decimal. -/
def filename (timestamp : Int) : String :=
  "railway-item-" ++ toString timestamp ++ ".pdf"

/-- Lines 40-43 and 51-55: what the document holds before the encoder is called. -/
def headerOps : List DocOp :=
  [ .newDocument "A4" 50 50 50 50,
    .fontSize 24,
    .text "Railway Track Fitting Certificate" .alignCenter,
    .moveDown 3,
    .fontSize 16,
    .text "Item Details" .underline,
    .moveDown 2 ]

/-- Lines 66-69: the embedded code image and the switch to the body font. -/
def imageOps (buf : List Nat) : List DocOp :=
  [ .image buf (a4Width - 15000) 5000 10000 10000,
    .moveDown 3,
    .fontSize 12 ]

/-- Lines 72-94: the labelled fields. -/
def fieldOps (w : World) (req : PdfRequest) : List DocOp :=
  [ .text "Vendor Name:" .continued, .text (" " ++ jsStr req.vendorName) .plain, .moveDown 1,
    .text "Lot Number:" .continued, .text (" " ++ jsStr req.lotNumber) .plain, .moveDown 1,
    .text "Item Type:" .continued, .text (" " ++ jsStr req.itemType) .plain, .moveDown 1 ]
  ++ (if truthy req.manufactureDate then
        [ .text "Manufacture Date:" .continued,
          .text (" " ++ w.toLocaleDateString (jsStr req.manufactureDate)) .plain,
          .moveDown 1 ]
      else [])
  ++ (if truthy req.supplyDate then
        [ .text "Supply Date:" .continued,
          .text (" " ++ w.toLocaleDateString (jsStr req.supplyDate)) .plain,
          .moveDown 1 ]
      else [])
  ++ (if truthy req.warrantyPeriod then
        [ .text "Warranty Period:" .continued,
          .text (" " ++ jsStr req.warrantyPeriod) .plain,
          .moveDown 2 ]
      else [])

/-- Lines 96-98: the generation time and the document id. -/
def footerOps (w : World) (timestamp : Int) : List DocOp :=
  [ .fontSize 10,
    .text ("Generated on: " ++ w.nowLocaleString) .plain,
    .moveDown 2,
    .text ("Document ID: " ++ toString timestamp) .plain ]

/-- The whole document of a request that reaches `doc.end()`. -/
def documentOps (w : World) (timestamp : Int) (req : PdfRequest) (buf : List Nat) :
    List DocOp :=
  headerOps ++ imageOps buf ++ fieldOps w req ++ footerOps w timestamp

/-- The options of the encoder call on line 62. -/
def pdfQrOptions : QROptions := ⟨200, 2, none⟩

/-- Line 63: the second piece of `qrDataUrl` split at commas. -/
def dataUrlBody (qrDataUrl : String) : Option String :=
  ((splitChar ',' qrDataUrl.data).map String.mk)[1]?

/-- The handler of `POST /api/generate-pdf` on a body whose fields are strings
or absent, run with the clock reading `timestamp` against the store `fs`. -/
def generatePdf (w : World) (env : Env) (dirname : Path) (timestamp : Int)
    (req : PdfRequest) (fs : Store) : Outcome :=
  let name := filename timestamp
  let filepath := pathJoin (uploadsDir dirname) name
  let fs1 := writeFile fs filepath ⟨headerOps, false⟩
  let pdfUrl := baseUrl env ++ "/uploads/" ++ name
  let calls := [(some pdfUrl, pdfQrOptions)]
  match w.toDataURL (some pdfUrl) pdfQrOptions with
  | .error e => ⟨some ⟨500, .failure e⟩, fs1, calls⟩
  | .ok qrDataUrl =>
    match dataUrlBody qrDataUrl with
    | none => ⟨some ⟨500, .failure w.bufferTypeError⟩, fs1, calls⟩
    | some b64 =>
      let qrImageBuffer := w.base64 b64
      match w.imageError qrImageBuffer with
      | some e => ⟨some ⟨500, .failure e⟩, fs1, calls⟩
      | none =>
        let ops := documentOps w timestamp req qrImageBuffer
        if w.streamFinishes then
          ⟨some ⟨200, .pdfOk name ("/uploads/" ++ name) timestamp pdfUrl⟩,
            writeFile fs filepath ⟨ops, true⟩, calls⟩
        else
          ⟨none, writeFile fs filepath ⟨ops, false⟩, calls⟩

/-! ## `POST /api/generate-pdf` on an arbitrary parsed body -/

/-- A value found in a parsed JSON body, as far as the handler can observe it.
A number carries the text that a template literal prints for it and whether it
is zero; an object or array carries the string it converts to, or, when the
conversion to a primitive throws, the message of that TypeError. -/
inductive JsVal
  | undefined
  | null
  | bool (b : Bool)
  | num (text : String) (isZero : Bool)
  | str (s : String)
  | object (text : String)
  | unprintable (error : String)
deriving DecidableEq, Repr

/-- The conversion of a value to a string inside a template literal. -/
def JsVal.toText : JsVal → Except String String
  | .undefined => .ok "undefined"
  | .null => .ok "null"
  | .bool b => .ok (if b then "true" else "false")
  | .num text _ => .ok text
  | .str s => .ok s
  | .object text => .ok text
  | .unprintable e => .error e

/-- The test `if (value)`. -/
def JsVal.isTruthy : JsVal → Bool
  | .undefined => false
  | .null => false
  | .bool b => b
  | .num _ isZero => !isZero
  | .str s => decide (s ≠ "")
  | .object _ => true
  | .unprintable _ => true

/-- The expression `new Date(value).toLocaleDateString()`: a string, or an object
that converts to one, is parsed as a date string; any other primitive is
converted to a number and taken as a time value. -/
def dateText (w : World) : JsVal → Except String String
  | .undefined => .ok (w.numberDate "NaN")
  | .null => .ok (w.numberDate "0")
  | .bool b => .ok (w.numberDate (if b then "1" else "0"))
  | .num text _ => .ok (w.numberDate text)
  | .str s => .ok (w.toLocaleDateString s)
  | .object text => .ok (w.toLocaleDateString text)
  | .unprintable e => .error e

/-- The six properties destructured from the body on lines 31-38. -/
structure RawRequest where
  vendorName : JsVal
  lotNumber : JsVal
  itemType : JsVal
  manufactureDate : JsVal
  supplyDate : JsVal
  warrantyPeriod : JsVal
deriving DecidableEq, Repr

/-- A field of the string-typed record as a body value. -/
def ofField : Option String → JsVal
  | some s => .str s
  | none => .undefined

/-- A string-typed record as a parsed body. -/
def PdfRequest.toRaw (req : PdfRequest) : RawRequest :=
  ⟨ofField req.vendorName, ofField req.lotNumber, ofField req.itemType,
    ofField req.manufactureDate, ofField req.supplyDate, ofField req.warrantyPeriod⟩

/-- The labelled lines of lines 72-94 in order: label, the value text (or the
error thrown while computing it) and the advance that follows. -/
def fieldLineSpecs (w : World) (req : RawRequest) : List (String × Except String String × Nat) :=
  [ ("Vendor Name:", req.vendorName.toText, 1),
    ("Lot Number:", req.lotNumber.toText, 1),
    ("Item Type:", req.itemType.toText, 1) ]
  ++ (if req.manufactureDate.isTruthy then
        [("Manufacture Date:", dateText w req.manufactureDate, 1)] else [])
  ++ (if req.supplyDate.isTruthy then
        [("Supply Date:", dateText w req.supplyDate, 1)] else [])
  ++ (if req.warrantyPeriod.isTruthy then
        [("Warranty Period:", req.warrantyPeriod.toText, 2)] else [])

/-- Emission of labelled lines onto a document: the label goes out first, then
the value is computed; if that throws, emission stops with the message and the
document as it stands. -/
def emitLines : List (String × Except String String × Nat) → List DocOp →
    Except (String × List DocOp) (List DocOp)
  | [], ops => .ok ops
  | (label, .ok s, gap) :: rest, ops =>
    emitLines rest (ops ++ [.text label .continued, .text (" " ++ s) .plain, .moveDown gap])
  | (label, .error e, _) :: _, ops => .error (e, ops ++ [.text label .continued])

/-- The handler of `POST /api/generate-pdf` on whatever the JSON middleware left
in `req.body` (nothing, or an object with arbitrary values). -/
def generatePdfHandler (w : World) (env : Env) (dirname : Path) (timestamp : Int)
    (body : Option RawRequest) (fs : Store) : Outcome :=
  match body with
  | none => ⟨some ⟨500, .failure w.bodyTypeError⟩, fs, []⟩
  | some req =>
    let name := filename timestamp
    let filepath := pathJoin (uploadsDir dirname) name
    let fs1 := writeFile fs filepath ⟨headerOps, false⟩
    let pdfUrl := baseUrl env ++ "/uploads/" ++ name
    let calls := [(some pdfUrl, pdfQrOptions)]
    match w.toDataURL (some pdfUrl) pdfQrOptions with
    | .error e => ⟨some ⟨500, .failure e⟩, fs1, calls⟩
    | .ok qrDataUrl =>
      match dataUrlBody qrDataUrl with
      | none => ⟨some ⟨500, .failure w.bufferTypeError⟩, fs1, calls⟩
      | some b64 =>
        let qrImageBuffer := w.base64 b64
        match w.imageError qrImageBuffer with
        | some e => ⟨some ⟨500, .failure e⟩, fs1, calls⟩
        | none =>
          match emitLines (fieldLineSpecs w req) (headerOps ++ imageOps qrImageBuffer) with
          | .error (e, ops) =>
            ⟨some ⟨500, .failure e⟩, writeFile fs filepath ⟨ops, false⟩, calls⟩
          | .ok ops =>
            if w.streamFinishes then
              ⟨some ⟨200, .pdfOk name ("/uploads/" ++ name) timestamp pdfUrl⟩,
                writeFile fs filepath ⟨ops ++ footerOps w timestamp, true⟩, calls⟩
            else
              ⟨none, writeFile fs filepath ⟨ops ++ footerOps w timestamp, false⟩, calls⟩

/-! ## `POST /api/generate-qr` (lines 119-138) -/

/-- The options of the encoder call on lines 122-126. -/
def standaloneQrOptions : QROptions := ⟨300, 2, some ⟨"#000000", "#FFFFFF"⟩⟩

/-- The handler of `POST /api/generate-qr`. -/
def generateQr (w : World) (req : QrRequest) (fs : Store) : Outcome :=
  let calls := [(req.pdfUrl, standaloneQrOptions)]
  match w.toDataURL req.pdfUrl standaloneQrOptions with
  | .ok qrDataUrl => ⟨some ⟨200, .qrOk qrDataUrl req.pdfUrl⟩, fs, calls⟩
  | .error e => ⟨some ⟨500, .failure e⟩, fs, calls⟩

/-! ## Reading a document back -/

/-- The labelled field lines of a document: every continued label with the text
that completes it. -/
def fieldLines : List DocOp → List (String × String)
  | [] => []
  | .text l .continued :: .text v _ :: rest => (l, v) :: fieldLines rest
  | _ :: rest => fieldLines rest

/-- The buffers of the images embedded in a document. -/
def imagesOf : List DocOp → List (List Nat)
  | [] => []
  | .image buf _ _ _ _ :: rest => buf :: imagesOf rest
  | _ :: rest => imagesOf rest

/-- The vertical advance (in half lines) made right after the line labelled
`label`, if the document has such a line followed by a `moveDown`. -/
def advanceAfter (label : String) : List DocOp → Option Nat
  | [] => none
  | op :: rest =>
    if op = .text label .continued then
      match rest with
      | _ :: .moveDown k :: _ => some k
      | _ => none
    else advanceAfter label rest

/-- One optional line in the words of the specification: a (label, optional
value, formatter) triple yields a line exactly when the value is present and
non-empty. -/
def optionalLine (label : String) (value : Option String) (fmt : String → String) :
    List (String × String) :=
  match value with
  | some s => if s = "" then [] else [(label, " " ++ fmt s)]
  | none => []

/-- The field lines the specification asks for. -/
def expectedFieldLines (w : World) (req : PdfRequest) : List (String × String) :=
  [ ("Vendor Name:", " " ++ jsStr req.vendorName),
    ("Lot Number:", " " ++ jsStr req.lotNumber),
    ("Item Type:", " " ++ jsStr req.itemType) ]
  ++ optionalLine "Manufacture Date:" req.manufactureDate w.toLocaleDateString
  ++ optionalLine "Supply Date:" req.supplyDate w.toLocaleDateString
  ++ optionalLine "Warranty Period:" req.warrantyPeriod id

/-- Decimal digits of a natural number, most significant first: the characters
that `toString` prints, in a form that is easy to reason about. -/
def decDigits (n : Nat) : List Char :=
  if _h : n < 10 then [Nat.digitChar n]
  else decDigits (n / 10) ++ [Nat.digitChar (n % 10)]
decreasing_by omega

/-! ## Sample inputs -/

/-- A world whose encoder always answers with a small data URL. -/
def sampleWorld : World where
  toDataURL := fun _ _ => .ok "data:image/png;base64,iVBORw0KGgo="
  base64 := fun s => s.data.map Char.toNat
  bufferTypeError := "The first argument must be of type string"
  imageError := fun _ => none
  toLocaleDateString := fun s => "date(" ++ s ++ ")"
  nowLocaleString := "1/1/2025, 12:00:00 AM"
  streamFinishes := true
  numberDate := fun n => "date of " ++ n
  bodyTypeError := "Cannot destructure property vendorName of req.body as it is undefined."

/-- A world whose encoder rejects every payload. -/
def rejectingWorld : World :=
  { sampleWorld with toDataURL := fun _ _ => .error "The amount of data is too big" }

/-- The local deployment: no environment variable is set. -/
def localEnv : Env := ⟨none, none, none⟩

/-- The request of the concrete scenario of the specification. -/
def sampleRequest : PdfRequest :=
  ⟨some "Acme Rail", some "L-2024-001", some "Fishplate",
    some "2024-01-15", some "2024-02-01", some "5 years"⟩

/-- The directory of the server script. -/
def sampleDirname : Path := ["srv", "raildash"]

/-- The store with no file. -/
def emptyStore : Store := fun _ => none

/-- The clock reading of the sample run. -/
def sampleTime : Int := 1700000000000

/-- The response of the sample run. -/
def sampleDescriptor : Response :=
  ⟨200, .pdfOk "railway-item-1700000000000.pdf" "/uploads/railway-item-1700000000000.pdf"
    1700000000000 "http://10.3.104.75:5000/uploads/railway-item-1700000000000.pdf"⟩

/-- A body whose vendor name is an object that cannot be converted to a string. -/
def unprintableBody : RawRequest :=
  { sampleRequest.toRaw with
    vendorName := .unprintable "Cannot convert object to primitive value" }

/-- The path of the sample artifact. -/
def samplePath : Path :=
  ["srv", "raildash", "uploads", "railway-item-1700000000000.pdf"]

/-! ## Decimal printing -/

theorem digitChar_isDigit : ∀ k < 10, (Nat.digitChar k).isDigit = true := by decide

theorem digitChar_inj : ∀ a < 10, ∀ b < 10, Nat.digitChar a = Nat.digitChar b → a = b := by
  decide

theorem decDigits_lt (n : Nat) (h : n < 10) : decDigits n = [Nat.digitChar n] := by
  rw [decDigits, dif_pos h]

theorem decDigits_ge (n : Nat) (h : 10 ≤ n) :
    decDigits n = decDigits (n / 10) ++ [Nat.digitChar (n % 10)] := by
  rw [decDigits, dif_neg (by omega)]

theorem toDigitsCore_eq (fuel : Nat) : ∀ n ds, n < fuel →
    Nat.toDigitsCore 10 fuel n ds = decDigits n ++ ds := by
  induction fuel with
  | zero => intro n ds h; omega
  | succ fuel ih =>
    intro n ds h
    unfold Nat.toDigitsCore
    by_cases h0 : n / 10 = 0
    · have hn : n < 10 := by omega
      simp only [h0, if_true]
      rw [decDigits_lt n hn, Nat.mod_eq_of_lt hn]
      rfl
    · have hn : 10 ≤ n := by omega
      simp only [h0, if_false]
      rw [ih (n / 10) _ (by omega), decDigits_ge n hn]
      simp

theorem repr_data (n : Nat) : (Nat.repr n).data = decDigits n := by
  unfold Nat.repr Nat.toDigits
  rw [toDigitsCore_eq (n + 1) n [] (by omega)]
  simp [List.asString]

theorem decDigits_ne_nil (n : Nat) : decDigits n ≠ [] := by
  by_cases h : n < 10
  · rw [decDigits_lt n h]; simp
  · rw [decDigits_ge n (by omega)]; simp

theorem decDigits_isDigit (n : Nat) : ∀ c ∈ decDigits n, c.isDigit = true := by
  induction n using Nat.strong_induction_on with
  | _ n ih =>
    intro c hc
    by_cases h : n < 10
    · rw [decDigits_lt n h] at hc
      simp only [List.mem_singleton] at hc
      subst hc
      exact digitChar_isDigit n h
    · rw [decDigits_ge n (by omega)] at hc
      rcases List.mem_append.mp hc with hc | hc
      · exact ih (n / 10) (by omega) c hc
      · simp only [List.mem_singleton] at hc
        subst hc
        exact digitChar_isDigit _ (Nat.mod_lt n (by decide))

theorem decDigits_inj (a : Nat) : ∀ b, decDigits a = decDigits b → a = b := by
  induction a using Nat.strong_induction_on with
  | _ a ih =>
    intro b hab
    by_cases ha : a < 10 <;> by_cases hb : b < 10
    · rw [decDigits_lt a ha, decDigits_lt b hb] at hab
      exact digitChar_inj a ha b hb (List.singleton_inj.mp hab)
    · rw [decDigits_lt a ha, decDigits_ge b (by omega)] at hab
      have hl := congrArg List.length hab
      have := List.length_pos.mpr (decDigits_ne_nil (b / 10))
      simp only [List.length_append, List.length_singleton] at hl
      omega
    · rw [decDigits_ge a (by omega), decDigits_lt b hb] at hab
      have hl := congrArg List.length hab
      have := List.length_pos.mpr (decDigits_ne_nil (a / 10))
      simp only [List.length_append, List.length_singleton] at hl
      omega
    · rw [decDigits_ge a (by omega), decDigits_ge b (by omega)] at hab
      obtain ⟨h1, h2⟩ := List.append_inj' hab rfl
      have hq := ih (a / 10) (by omega) (b / 10) h1
      have hr := digitChar_inj _ (Nat.mod_lt a (by decide)) _ (Nat.mod_lt b (by decide))
        (List.singleton_inj.mp h2)
      omega

theorem toString_ofNat_data (n : Nat) : (toString (n : Int)).data = decDigits n :=
  repr_data n

theorem toString_negSucc_data (n : Nat) :
    (toString (Int.negSucc n)).data = '-' :: decDigits (n + 1) := by
  show ("-" ++ Nat.repr (n + 1)).data = _
  rw [String.data_append, repr_data]
  rfl

theorem filename_data (t : Int) :
    (filename t).data = "railway-item-".data ++ ((toString t).data ++ ".pdf".data) := by
  simp [filename, String.data_append]

/-! ## Characters of the artifact name -/

theorem toString_int_chars (t : Int) :
    ∀ c ∈ (toString t).data, c.isDigit = true ∨ c = '-' := by
  intro c hc
  cases t with
  | ofNat n =>
    rw [show Int.ofNat n = (n : Int) from rfl, toString_ofNat_data] at hc
    exact Or.inl (decDigits_isDigit n c hc)
  | negSucc n =>
    rw [toString_negSucc_data] at hc
    rcases List.mem_cons.mp hc with hc | hc
    · exact Or.inr hc
    · exact Or.inl (decDigits_isDigit _ c hc)

theorem filename_chars (t : Int) :
    ∀ c ∈ (filename t).data,
      c.isLower = true ∨ c.isDigit = true ∨ c = '.' ∨ c = '-' := by
  intro c hc
  rw [filename_data] at hc
  have hpre : ∀ c ∈ "railway-item-".data,
      c.isLower = true ∨ c.isDigit = true ∨ c = '.' ∨ c = '-' := by decide
  have hsuf : ∀ c ∈ ".pdf".data,
      c.isLower = true ∨ c.isDigit = true ∨ c = '.' ∨ c = '-' := by decide
  rcases List.mem_append.mp hc with hc | hc
  · exact hpre c hc
  · rcases List.mem_append.mp hc with hc | hc
    · rcases toString_int_chars t c hc with h | h
      · exact Or.inr (Or.inl h)
      · exact Or.inr (Or.inr (Or.inr h))
    · exact hsuf c hc

theorem filename_no_slash (t : Int) : '/' ∉ (filename t).data := by
  intro h
  have := filename_chars t '/' h
  revert this
  decide

theorem filename_no_backslash (t : Int) : Char.ofNat 92 ∉ (filename t).data := by
  intro h
  have := filename_chars t (Char.ofNat 92) h
  revert this
  decide

theorem infix_skip {x : Char} {l : List Char} (B : List Char) :
    ∀ A : List Char, x ∉ A → (x :: l) <:+: (A ++ B) → (x :: l) <:+: B := by
  intro A
  induction A with
  | nil => intro _ h; simpa using h
  | cons a A ih =>
    intro hx h
    rw [List.cons_append, List.infix_cons_iff] at h
    rcases h with h | h
    · exfalso
      rw [List.cons_prefix_cons] at h
      exact hx (by simp [h.1])
    · exact ih (fun hm => hx (List.mem_cons_of_mem _ hm)) h

theorem filename_no_dotdot (t : Int) : ¬ ("..".data <:+: (filename t).data) := by
  intro h
  rw [filename_data, ← List.append_assoc] at h
  have hx : '.' ∉ "railway-item-".data ++ (toString t).data := by
    intro hm
    rcases List.mem_append.mp hm with hm | hm
    · revert hm; decide
    · rcases toString_int_chars t '.' hm with h1 | h1
      · revert h1; decide
      · revert h1; decide
  have h2 := infix_skip ".pdf".data _ hx h
  revert h2
  decide

theorem filename_ne_special (t : Int) :
    filename t ≠ "" ∧ filename t ≠ "." ∧ filename t ≠ ".." := by
  have h : ∃ cs, (filename t).data = 'r' :: cs := ⟨_, by rw [filename_data]; rfl⟩
  obtain ⟨cs, hcs⟩ := h
  refine ⟨?_, ?_, ?_⟩ <;> intro he <;> rw [he] at hcs <;> simp at hcs

/-! ## Paths -/

theorem splitChar_of_not_mem (sep : Char) :
    ∀ cs : List Char, sep ∉ cs → splitChar sep cs = [cs] := by
  intro cs
  induction cs with
  | nil => intro _; rfl
  | cons c cs ih =>
    intro h
    have hc : c ≠ sep := fun e => h (by simp [e])
    have hcs : sep ∉ cs := fun hm => h (List.mem_cons_of_mem _ hm)
    simp [splitChar, hc, ih hcs]

theorem pathJoin_segment (dir : Path) (name : String) (h1 : '/' ∉ name.data)
    (h2 : name ≠ "") (h3 : name ≠ ".") (h4 : name ≠ "..") :
    pathJoin dir name = dir ++ [name] := by
  simp [pathJoin, splitChar_of_not_mem '/' name.data h1, pushSegment, h2, h3, h4]

theorem uploadsDir_eq (dirname : Path) : uploadsDir dirname = dirname ++ ["uploads"] := by
  unfold uploadsDir
  exact pathJoin_segment dirname "uploads" (by decide) (by decide) (by decide) (by decide)

theorem writePath_eq (dirname : Path) (t : Int) :
    pathJoin (uploadsDir dirname) (filename t) = uploadsDir dirname ++ [filename t] :=
  pathJoin_segment _ _ (filename_no_slash t) (filename_ne_special t).1
    (filename_ne_special t).2.1 (filename_ne_special t).2.2

/-! ## Injectivity of the artifact name -/

theorem filename_inj_nonneg (t1 t2 : Int) (h1 : 0 ≤ t1) (h2 : 0 ≤ t2)
    (h : filename t1 = filename t2) : t1 = t2 := by
  obtain ⟨a, rfl⟩ := Int.eq_ofNat_of_zero_le h1
  obtain ⟨b, rfl⟩ := Int.eq_ofNat_of_zero_le h2
  have hd := congrArg String.data h
  rw [filename_data, filename_data] at hd
  have hd2 := List.append_cancel_right (List.append_cancel_left hd)
  rw [toString_ofNat_data, toString_ofNat_data] at hd2
  rw [decDigits_inj a b hd2]

/-! ## The three ways `generatePdf` can end -/

theorem generatePdf_ok (w : World) (env : Env) (dirname : Path) (t : Int)
    (req : PdfRequest) (fs : Store) (d b64 : String)
    (hd : w.toDataURL (some (baseUrl env ++ "/uploads/" ++ filename t)) pdfQrOptions = .ok d)
    (hb : dataUrlBody d = some b64) (hi : w.imageError (w.base64 b64) = none)
    (hf : w.streamFinishes = true) :
    generatePdf w env dirname t req fs =
      ⟨some ⟨200, .pdfOk (filename t) ("/uploads/" ++ filename t) t
          (baseUrl env ++ "/uploads/" ++ filename t)⟩,
        writeFile fs (pathJoin (uploadsDir dirname) (filename t))
          ⟨documentOps w t req (w.base64 b64), true⟩,
        [(some (baseUrl env ++ "/uploads/" ++ filename t), pdfQrOptions)]⟩ := by
  simp [generatePdf, hd, hb, hi, hf]

theorem generatePdf_success_inv (w : World) (env : Env) (dirname : Path) (t : Int)
    (req : PdfRequest) (fs : Store) (r : Response)
    (hr : (generatePdf w env dirname t req fs).response = some r)
    (hs : r.body.success = true) :
    ∃ d b64,
      w.toDataURL (some (baseUrl env ++ "/uploads/" ++ filename t)) pdfQrOptions = .ok d ∧
      dataUrlBody d = some b64 ∧ w.imageError (w.base64 b64) = none ∧
      w.streamFinishes = true := by
  unfold generatePdf at hr
  simp only at hr
  split at hr
  · simp only [Option.some.injEq] at hr; subst hr; simp [Body.success] at hs
  · rename_i d hd
    split at hr
    · simp only [Option.some.injEq] at hr; subst hr; simp [Body.success] at hs
    · rename_i b64 hb
      split at hr
      · simp only [Option.some.injEq] at hr; subst hr; simp [Body.success] at hs
      · rename_i hi
        split at hr
        · rename_i hf
          exact ⟨d, b64, hd, hb, hi, hf⟩
        · simp at hr

theorem generatePdf_store (w : World) (env : Env) (dirname : Path) (t : Int)
    (req : PdfRequest) (fs : Store) :
    ∃ f, (generatePdf w env dirname t req fs).store =
      writeFile fs (uploadsDir dirname ++ [filename t]) f := by
  rw [← writePath_eq]
  unfold generatePdf
  simp only
  split
  · exact ⟨_, rfl⟩
  · split
    · exact ⟨_, rfl⟩
    · split
      · exact ⟨_, rfl⟩
      · split
        · exact ⟨_, rfl⟩
        · exact ⟨_, rfl⟩

theorem generatePdf_pdfOk_inv (w : World) (env : Env) (dirname : Path) (t : Int)
    (req : PdfRequest) (fs : Store) (st : Nat) (fn fp : String) (ts : Int) (url : String)
    (hr : (generatePdf w env dirname t req fs).response = some ⟨st, .pdfOk fn fp ts url⟩) :
    st = 200 ∧ fn = filename t ∧ fp = "/uploads/" ++ filename t ∧ ts = t ∧
    url = baseUrl env ++ "/uploads/" ++ filename t ∧
    ∃ d b64, w.toDataURL (some url) pdfQrOptions = .ok d ∧ dataUrlBody d = some b64 ∧
      (generatePdf w env dirname t req fs).store =
        writeFile fs (uploadsDir dirname ++ [fn]) ⟨documentOps w t req (w.base64 b64), true⟩ ∧
      (generatePdf w env dirname t req fs).encoderCalls = [(some url, pdfQrOptions)] := by
  obtain ⟨d, b64, hd, hb, hi, hf⟩ :=
    generatePdf_success_inv w env dirname t req fs _ hr (by simp [Body.success])
  have h := generatePdf_ok w env dirname t req fs d b64 hd hb hi hf
  rw [h] at hr
  simp only [Option.some.injEq, Response.mk.injEq, Body.pdfOk.injEq] at hr
  obtain ⟨h1, h2, h3, h4, h5⟩ := hr
  subst h1 h2 h3 h4 h5
  refine ⟨rfl, rfl, rfl, rfl, rfl, d, b64, hd, hb, ?_, ?_⟩
  · rw [h, writePath_eq]
  · rw [h]

theorem writeFile_same (fs : Store) (p : Path) (f : File) : writeFile fs p f p = some f := by
  simp [writeFile]

theorem writeFile_other (fs : Store) (p q : Path) (f : File) (h : q ≠ p) :
    writeFile fs p f q = fs q := by
  simp [writeFile, h]

/-! ## The composed document -/

theorem imagesOf_documentOps (w : World) (t : Int) (req : PdfRequest) (buf : List Nat) :
    imagesOf (documentOps w t req buf) = [buf] := by
  rcases req with ⟨v, l, i, m, s, p⟩
  cases hm : truthy m <;> cases hs : truthy s <;> cases hp : truthy p <;>
    simp [documentOps, headerOps, imageOps, fieldOps, footerOps, imagesOf, hm, hs, hp]

theorem getLast_documentOps (w : World) (t : Int) (req : PdfRequest) (buf : List Nat) :
    (documentOps w t req buf).getLast? =
      some (.text ("Document ID: " ++ toString t) .plain) := by
  simp [documentOps, footerOps]

theorem truthy_eq (v : Option String) :
    truthy v = true ↔ ∃ s, v = some s ∧ s ≠ "" := by
  cases v with
  | none => simp [truthy]
  | some s => simp [truthy]

theorem optionalLine_truthy (label : String) (v : Option String) (fmt : String → String)
    (h : truthy v = true) : optionalLine label v fmt = [(label, " " ++ fmt (jsStr v))] := by
  obtain ⟨s, rfl, hs⟩ := (truthy_eq v).mp h
  simp [optionalLine, hs, jsStr]

theorem optionalLine_falsy (label : String) (v : Option String) (fmt : String → String)
    (h : truthy v = false) : optionalLine label v fmt = [] := by
  cases v with
  | none => rfl
  | some s =>
    have hs : s = "" := by simpa [truthy] using h
    simp [optionalLine, hs]

theorem fieldLines_documentOps (w : World) (t : Int) (req : PdfRequest) (buf : List Nat) :
    fieldLines (documentOps w t req buf) = expectedFieldLines w req := by
  rcases req with ⟨v, l, i, m, s, p⟩
  cases hm : truthy m <;> cases hs : truthy s <;> cases hp : truthy p <;>
    simp [documentOps, headerOps, imageOps, fieldOps, footerOps, fieldLines,
      expectedFieldLines, hm, hs, hp, optionalLine_truthy, optionalLine_falsy]

theorem advanceAfter_documentOps (w : World) (t : Int) (req : PdfRequest) (buf : List Nat) :
    advanceAfter "Manufacture Date:" (documentOps w t req buf) =
      (if truthy req.manufactureDate then some 1 else none) ∧
    advanceAfter "Supply Date:" (documentOps w t req buf) =
      (if truthy req.supplyDate then some 1 else none) ∧
    advanceAfter "Warranty Period:" (documentOps w t req buf) =
      (if truthy req.warrantyPeriod then some 2 else none) := by
  rcases req with ⟨v, l, i, m, s, p⟩
  cases hm : truthy m <;> cases hs : truthy s <;> cases hp : truthy p <;>
    simp [documentOps, headerOps, imageOps, fieldOps, footerOps, advanceAfter, hm, hs, hp]

/-! ## The body of a data URL -/

theorem splitChar_shape (sep : Char) :
    ∀ cs : List Char, ∃ hd rest, splitChar sep cs = hd :: rest ∧ sep ∉ hd ∧
      ((rest = [] ∧ cs = hd) ∨ ∃ tl, cs = hd ++ sep :: tl ∧ rest = splitChar sep tl) := by
  intro cs
  induction cs with
  | nil => exact ⟨[], [], rfl, by simp, Or.inl ⟨rfl, rfl⟩⟩
  | cons c cs ih =>
    by_cases hc : c = sep
    · subst hc
      exact ⟨[], splitChar c cs, by simp [splitChar], by simp, Or.inr ⟨cs, rfl, rfl⟩⟩
    · obtain ⟨hd, rest, hsplit, hmem, hcase⟩ := ih
      refine ⟨c :: hd, rest, by simp [splitChar, hc, hsplit], ?_, ?_⟩
      · intro hm
        rcases List.mem_cons.mp hm with h | h
        · exact hc h.symm
        · exact hmem h
      · rcases hcase with ⟨h1, h2⟩ | ⟨tl, h1, h2⟩
        · exact Or.inl ⟨h1, by rw [h2]⟩
        · exact Or.inr ⟨tl, by rw [h1]; rfl, h2⟩

theorem dataUrlBody_some (d b64 : String) (h : dataUrlBody d = some b64) :
    ∃ hdr rest : List Char, d.data = hdr ++ ',' :: (b64.data ++ rest) ∧
      ',' ∉ hdr ∧ ',' ∉ b64.data ∧ (rest = [] ∨ ∃ r, rest = ',' :: r) := by
  unfold dataUrlBody at h
  obtain ⟨hdr, parts, hsplit, hhdr, hcase⟩ := splitChar_shape ',' d.data
  rw [hsplit] at h
  rcases hcase with ⟨h1, -⟩ | ⟨tl, hd, hparts⟩
  · subst h1
    simp at h
  · obtain ⟨p1, more, hsplit2, hp1, hcase2⟩ := splitChar_shape ',' tl
    rw [hparts, hsplit2] at h
    simp only [List.map_cons, List.getElem?_cons_succ, List.getElem?_cons_zero,
      Option.some.injEq] at h
    subst h
    rcases hcase2 with ⟨-, h2⟩ | ⟨tl2, h2, -⟩
    · exact ⟨hdr, [], by rw [hd, h2]; simp, hhdr, hp1, Or.inl rfl⟩
    · exact ⟨hdr, ',' :: tl2, by rw [hd, h2], hhdr, hp1, Or.inr ⟨tl2, rfl⟩⟩

/-! ## The handler on arbitrary bodies -/

theorem emitLines_error_extends :
    ∀ (specs : List (String × Except String String × Nat)) (ops ops1 : List DocOp) (e : String),
      emitLines specs ops = .error (e, ops1) → ∃ extra, ops1 = ops ++ extra := by
  intro specs
  induction specs with
  | nil => intro ops ops1 e h; simp [emitLines] at h
  | cons spec rest ih =>
    intro ops ops1 e h
    obtain ⟨label, value, gap⟩ := spec
    cases value with
    | ok s =>
      simp only [emitLines] at h
      obtain ⟨extra, hx⟩ := ih _ ops1 e h
      exact ⟨_, by rw [hx, List.append_assoc]⟩
    | error e1 =>
      simp only [emitLines, Except.error.injEq, Prod.mk.injEq] at h
      exact ⟨_, h.2.symm⟩

theorem toText_ofField (v : Option String) : (ofField v).toText = .ok (jsStr v) := by
  cases v <;> rfl

theorem isTruthy_ofField (v : Option String) : (ofField v).isTruthy = truthy v := by
  cases v <;> rfl

theorem dateText_ofField (w : World) (v : Option String) (h : truthy v = true) :
    dateText w (ofField v) = .ok (w.toLocaleDateString (jsStr v)) := by
  cases v with
  | none => simp [truthy] at h
  | some s => rfl

theorem emitLines_toRaw (w : World) (req : PdfRequest) (ops : List DocOp) :
    emitLines (fieldLineSpecs w req.toRaw) ops = .ok (ops ++ fieldOps w req) := by
  rcases req with ⟨v, l, i, m, s, p⟩
  cases hm : truthy m <;> cases hs : truthy s <;> cases hp : truthy p <;>
    simp [fieldLineSpecs, PdfRequest.toRaw, fieldOps, emitLines, toText_ofField,
      isTruthy_ofField, dateText_ofField, hm, hs, hp]

theorem generatePdf_eq_handler (w : World) (env : Env) (dirname : Path) (t : Int)
    (req : PdfRequest) (fs : Store) :
    generatePdfHandler w env dirname t (some req.toRaw) fs =
      generatePdf w env dirname t req fs := by
  unfold generatePdfHandler generatePdf
  simp only [emitLines_toRaw, documentOps, List.append_assoc]

theorem generatePdfHandler_failure_inv (w : World) (env : Env) (dirname : Path) (t : Int)
    (req : RawRequest) (fs : Store) (st : Nat) (e : String)
    (hr : (generatePdfHandler w env dirname t (some req) fs).response =
      some ⟨st, .failure e⟩) :
    st = 500 ∧ ∃ ops,
      (generatePdfHandler w env dirname t (some req) fs).store =
        writeFile fs (pathJoin (uploadsDir dirname) (filename t)) ⟨headerOps ++ ops, false⟩ := by
  unfold generatePdfHandler at hr ⊢
  simp only at hr ⊢
  split at hr
  · simp only [Option.some.injEq, Response.mk.injEq] at hr
    exact ⟨hr.1.symm, [], by simp⟩
  · split at hr
    · simp only [Option.some.injEq, Response.mk.injEq] at hr
      exact ⟨hr.1.symm, [], by simp⟩
    · split at hr
      · simp only [Option.some.injEq, Response.mk.injEq] at hr
        exact ⟨hr.1.symm, [], by simp⟩
      · split at hr
        · rename_i e1 ops1 hemit
          simp only [Option.some.injEq, Response.mk.injEq] at hr
          obtain ⟨extra, hx⟩ := emitLines_error_extends _ _ _ _ hemit
          rename_i b64 _ _ _ _
          subst hx
          exact ⟨hr.1.symm, imageOps (w.base64 b64) ++ extra, by rw [List.append_assoc]⟩
        · split at hr
          · simp at hr
          · simp at hr

/-! ## The completion descriptor -/

/-- C1: a successful `POST /api/generate-pdf` at clock reading `t` with base URL `b`
answers exactly `success: true`, `filename = "railway-item-" ++ decimal t ++ ".pdf"`,
`filepath = "/uploads/" ++ filename`, `timestamp = t` and
`fullUrl = b ++ "/uploads/" ++ filename`; so `fullUrl = b ++ filepath` and the
timestamp field is the integer inside the file name. -/
theorem generatePdf_descriptor (w : World) (env : Env) (dirname : Path) (t : Int)
    (req : PdfRequest) (fs : Store) (b : String) (r : Response)
    (hb : baseUrl env = b)
    (hr : (generatePdf w env dirname t req fs).response = some r)
    (hs : r.body.success = true) :
    r = ⟨200, .pdfOk ("railway-item-" ++ toString t ++ ".pdf")
          ("/uploads/" ++ ("railway-item-" ++ toString t ++ ".pdf")) t
          (b ++ "/uploads/" ++ ("railway-item-" ++ toString t ++ ".pdf"))⟩ ∧
    b ++ "/uploads/" ++ ("railway-item-" ++ toString t ++ ".pdf") =
      b ++ ("/uploads/" ++ ("railway-item-" ++ toString t ++ ".pdf")) := by
  obtain ⟨d, b64, hd, hbody, hi, hf⟩ := generatePdf_success_inv w env dirname t req fs r hr hs
  rw [generatePdf_ok w env dirname t req fs d b64 hd hbody hi hf] at hr
  simp only [Option.some.injEq] at hr
  subst hr hb
  exact ⟨rfl, String.append_assoc _ _ _⟩

theorem generatePdf_descriptor_witness :
    baseUrl localEnv = "http://10.3.104.75:5000" ∧
    (generatePdf sampleWorld localEnv sampleDirname sampleTime sampleRequest emptyStore).response
      = some sampleDescriptor ∧
    sampleDescriptor.body.success = true ∧
    (sampleDescriptor = ⟨200, .pdfOk ("railway-item-" ++ toString sampleTime ++ ".pdf")
          ("/uploads/" ++ ("railway-item-" ++ toString sampleTime ++ ".pdf")) sampleTime
          ("http://10.3.104.75:5000" ++ "/uploads/" ++
            ("railway-item-" ++ toString sampleTime ++ ".pdf"))⟩ ∧
      "http://10.3.104.75:5000" ++ "/uploads/" ++
          ("railway-item-" ++ toString sampleTime ++ ".pdf") =
        "http://10.3.104.75:5000" ++
          ("/uploads/" ++ ("railway-item-" ++ toString sampleTime ++ ".pdf"))) :=
  ⟨by decide, by decide, by decide,
    generatePdf_descriptor sampleWorld localEnv sampleDirname sampleTime sampleRequest
      emptyStore "http://10.3.104.75:5000" sampleDescriptor (by decide) (by decide)
      (by decide)⟩

/-! ## Self reference and document id -/

/-- C2: when `generate-pdf` succeeds, the one call it makes to the encoder has the
returned `fullUrl` as payload, width 200, margin 2 and no colour override; the
data URL the encoder gave for that payload is a header without comma, a comma,
a body without comma, and then nothing or a further comma and more text; and
the only image of the stored document is the base64 decoding of that body. -/
theorem generatePdf_self_reference (w : World) (env : Env) (dirname : Path) (t : Int)
    (req : PdfRequest) (fs : Store) (st : Nat) (fn fp : String) (ts : Int) (url : String)
    (hr : (generatePdf w env dirname t req fs).response = some ⟨st, .pdfOk fn fp ts url⟩) :
    (generatePdf w env dirname t req fs).encoderCalls = [(some url, ⟨200, 2, none⟩)] ∧
    ∃ (d : String) (hdr body rest : List Char),
      w.toDataURL (some url) ⟨200, 2, none⟩ = .ok d ∧
      d.data = hdr ++ ',' :: (body ++ rest) ∧ ',' ∉ hdr ∧ ',' ∉ body ∧
      (rest = [] ∨ ∃ r, rest = ',' :: r) ∧
      ∃ f, (generatePdf w env dirname t req fs).store (uploadsDir dirname ++ [fn]) = some f ∧
        f.ended = true ∧ imagesOf f.ops = [w.base64 (String.mk body)] := by
  obtain ⟨-, -, -, -, -, d, b64, hd, hb, hstore, hcalls⟩ :=
    generatePdf_pdfOk_inv w env dirname t req fs st fn fp ts url hr
  obtain ⟨hdr, rest, hshape, hhdr, hbody, hrest⟩ := dataUrlBody_some d b64 hb
  refine ⟨hcalls, d, hdr, b64.data, rest, hd, hshape, hhdr, hbody, hrest,
    ⟨documentOps w t req (w.base64 b64), true⟩, ?_, rfl, imagesOf_documentOps w t req _⟩
  rw [hstore, writeFile_same]

theorem generatePdf_self_reference_witness :
    (generatePdf sampleWorld localEnv sampleDirname sampleTime sampleRequest emptyStore).response
      = some ⟨200, .pdfOk "railway-item-1700000000000.pdf"
          "/uploads/railway-item-1700000000000.pdf" 1700000000000
          "http://10.3.104.75:5000/uploads/railway-item-1700000000000.pdf"⟩ ∧
    ((generatePdf sampleWorld localEnv sampleDirname sampleTime sampleRequest
        emptyStore).encoderCalls =
      [(some "http://10.3.104.75:5000/uploads/railway-item-1700000000000.pdf",
        ⟨200, 2, none⟩)] ∧
    ∃ (d : String) (hdr body rest : List Char),
      sampleWorld.toDataURL
        (some "http://10.3.104.75:5000/uploads/railway-item-1700000000000.pdf")
        ⟨200, 2, none⟩ = .ok d ∧
      d.data = hdr ++ ',' :: (body ++ rest) ∧ ',' ∉ hdr ∧ ',' ∉ body ∧
      (rest = [] ∨ ∃ r, rest = ',' :: r) ∧
      ∃ f, (generatePdf sampleWorld localEnv sampleDirname sampleTime sampleRequest
          emptyStore).store
            (uploadsDir sampleDirname ++ ["railway-item-1700000000000.pdf"]) = some f ∧
        f.ended = true ∧ imagesOf f.ops = [sampleWorld.base64 (String.mk body)]) :=
  ⟨by decide,
    generatePdf_self_reference sampleWorld localEnv sampleDirname sampleTime sampleRequest
      emptyStore 200 "railway-item-1700000000000.pdf"
      "/uploads/railway-item-1700000000000.pdf" 1700000000000
      "http://10.3.104.75:5000/uploads/railway-item-1700000000000.pdf" (by decide)⟩

/-- C3: when `generate-pdf` succeeds, the returned file name is
`railway-item-<n>.pdf` for the returned `timestamp` n, and the last line of the
stored document is "Document ID: " followed by the same n. -/
theorem generatePdf_document_id (w : World) (env : Env) (dirname : Path) (t : Int)
    (req : PdfRequest) (fs : Store) (st : Nat) (fn fp : String) (ts : Int) (url : String)
    (hr : (generatePdf w env dirname t req fs).response = some ⟨st, .pdfOk fn fp ts url⟩) :
    ts = t ∧ fn = "railway-item-" ++ toString ts ++ ".pdf" ∧
    ∃ f, (generatePdf w env dirname t req fs).store (uploadsDir dirname ++ [fn]) = some f ∧
      f.ended = true ∧
      f.ops.getLast? = some (.text ("Document ID: " ++ toString ts) .plain) := by
  obtain ⟨-, hfn, -, hts, -, d, b64, -, -, hstore, -⟩ :=
    generatePdf_pdfOk_inv w env dirname t req fs st fn fp ts url hr
  subst hts
  refine ⟨rfl, hfn, ⟨documentOps w ts req (w.base64 b64), true⟩, ?_, rfl,
    getLast_documentOps w ts req _⟩
  rw [hstore, writeFile_same]

theorem generatePdf_document_id_witness :
    (generatePdf sampleWorld localEnv sampleDirname sampleTime sampleRequest emptyStore).response
      = some ⟨200, .pdfOk "railway-item-1700000000000.pdf"
          "/uploads/railway-item-1700000000000.pdf" 1700000000000
          "http://10.3.104.75:5000/uploads/railway-item-1700000000000.pdf"⟩ ∧
    ((1700000000000 : Int) = sampleTime ∧
    "railway-item-1700000000000.pdf" =
      "railway-item-" ++ toString (1700000000000 : Int) ++ ".pdf" ∧
    ∃ f, (generatePdf sampleWorld localEnv sampleDirname sampleTime sampleRequest
        emptyStore).store
          (uploadsDir sampleDirname ++ ["railway-item-1700000000000.pdf"]) = some f ∧
      f.ended = true ∧
      f.ops.getLast? =
        some (.text ("Document ID: " ++ toString (1700000000000 : Int)) .plain)) :=
  ⟨by decide,
    generatePdf_document_id sampleWorld localEnv sampleDirname sampleTime sampleRequest
      emptyStore 200 "railway-item-1700000000000.pdf"
      "/uploads/railway-item-1700000000000.pdf" 1700000000000
      "http://10.3.104.75:5000/uploads/railway-item-1700000000000.pdf" (by decide)⟩

/-! ## Field lines -/

/-- C4: the labelled field lines of the document stored by a successful
`generate-pdf` are Vendor Name, Lot Number, Item Type, followed by those of
Manufacture Date, Supply Date, Warranty Period whose input field is present and
non-empty, in that order, the two dates passed through the calendar-date
formatter. -/
theorem generatePdf_field_lines (w : World) (env : Env) (dirname : Path) (t : Int)
    (req : PdfRequest) (fs : Store) (st : Nat) (fn fp : String) (ts : Int) (url : String)
    (hr : (generatePdf w env dirname t req fs).response = some ⟨st, .pdfOk fn fp ts url⟩) :
    ∃ f, (generatePdf w env dirname t req fs).store (uploadsDir dirname ++ [fn]) = some f ∧
      f.ended = true ∧ fieldLines f.ops = expectedFieldLines w req := by
  obtain ⟨-, -, -, -, -, d, b64, -, -, hstore, -⟩ :=
    generatePdf_pdfOk_inv w env dirname t req fs st fn fp ts url hr
  refine ⟨⟨documentOps w t req (w.base64 b64), true⟩, ?_, rfl,
    fieldLines_documentOps w t req _⟩
  rw [hstore, writeFile_same]

theorem generatePdf_field_lines_witness :
    (generatePdf sampleWorld localEnv sampleDirname sampleTime
        { sampleRequest with supplyDate := none, warrantyPeriod := some "" }
        emptyStore).response
      = some ⟨200, .pdfOk "railway-item-1700000000000.pdf"
          "/uploads/railway-item-1700000000000.pdf" 1700000000000
          "http://10.3.104.75:5000/uploads/railway-item-1700000000000.pdf"⟩ ∧
    ∃ f, (generatePdf sampleWorld localEnv sampleDirname sampleTime
        { sampleRequest with supplyDate := none, warrantyPeriod := some "" }
        emptyStore).store
          (uploadsDir sampleDirname ++ ["railway-item-1700000000000.pdf"]) = some f ∧
      f.ended = true ∧
      fieldLines f.ops = expectedFieldLines sampleWorld
        { sampleRequest with supplyDate := none, warrantyPeriod := some "" } :=
  ⟨by decide,
    generatePdf_field_lines sampleWorld localEnv sampleDirname sampleTime
      { sampleRequest with supplyDate := none, warrantyPeriod := some "" }
      emptyStore 200 "railway-item-1700000000000.pdf"
      "/uploads/railway-item-1700000000000.pdf" 1700000000000
      "http://10.3.104.75:5000/uploads/railway-item-1700000000000.pdf" (by decide)⟩

/-! ## Failure and the store -/

/-- C5, as stated, fails: with an encoder that rejects the payload the handler
answers status 500 with `success: false`, and yet the file
`railway-item-1700000000000.pdf`, absent before, is in the uploads directory. -/
theorem generatePdf_failure_leaves_file :
    (generatePdfHandler rejectingWorld localEnv sampleDirname sampleTime
        (some sampleRequest.toRaw) emptyStore).response =
      some ⟨500, .failure "The amount of data is too big"⟩ ∧
    emptyStore samplePath = none ∧
    (generatePdfHandler rejectingWorld localEnv sampleDirname sampleTime
        (some sampleRequest.toRaw) emptyStore).store samplePath =
      some ⟨headerOps, false⟩ := by
  decide

/-- C5, amended: when `generate-pdf` answers `success: false` the status is 500
and every file other than `railway-item-<t>.pdf` is as before.  If the request
had no body the store is untouched; otherwise the uploads directory holds under
that name the file created by the write stream, unfinished: it starts with the
title and heading, holds whatever else was emitted before the failure, and was
never ended. -/
theorem generatePdf_failure_store (w : World) (env : Env) (dirname : Path) (t : Int)
    (body : Option RawRequest) (fs : Store) (st : Nat) (e : String)
    (hr : (generatePdfHandler w env dirname t body fs).response = some ⟨st, .failure e⟩) :
    st = 500 ∧
    (∀ q, q ≠ uploadsDir dirname ++ [filename t] →
      (generatePdfHandler w env dirname t body fs).store q = fs q) ∧
    ((body = none ∧ (generatePdfHandler w env dirname t body fs).store = fs) ∨
      ∃ req ops, body = some req ∧
        (generatePdfHandler w env dirname t body fs).store
            (uploadsDir dirname ++ [filename t]) =
          some ⟨headerOps ++ ops, false⟩) := by
  cases body with
  | none =>
    simp only [generatePdfHandler, Option.some.injEq, Response.mk.injEq] at hr
    exact ⟨hr.1.symm, fun q _ => rfl, Or.inl ⟨rfl, rfl⟩⟩
  | some req =>
    obtain ⟨hst, ops, hstore⟩ := generatePdfHandler_failure_inv w env dirname t req fs st e hr
    rw [hstore, writePath_eq]
    exact ⟨hst, fun q hq => writeFile_other _ _ _ _ hq,
      Or.inr ⟨req, ops, rfl, writeFile_same _ _ _⟩⟩

theorem generatePdf_failure_store_witness :
    (generatePdfHandler sampleWorld localEnv sampleDirname sampleTime
        (some unprintableBody) emptyStore).response =
      some ⟨500, .failure "Cannot convert object to primitive value"⟩ ∧
    (generatePdfHandler sampleWorld localEnv sampleDirname sampleTime
        (some unprintableBody) emptyStore).store samplePath =
      some ⟨headerOps ++ imageOps (sampleWorld.base64 "iVBORw0KGgo=") ++
        [.text "Vendor Name:" .continued], false⟩ ∧
    ((500 : Nat) = 500 ∧
    (∀ q, q ≠ uploadsDir sampleDirname ++ [filename sampleTime] →
      (generatePdfHandler sampleWorld localEnv sampleDirname sampleTime
        (some unprintableBody) emptyStore).store q = emptyStore q) ∧
    ((some unprintableBody = none ∧
        (generatePdfHandler sampleWorld localEnv sampleDirname sampleTime
          (some unprintableBody) emptyStore).store = emptyStore) ∨
      ∃ req ops, some unprintableBody = some req ∧
        (generatePdfHandler sampleWorld localEnv sampleDirname sampleTime
          (some unprintableBody) emptyStore).store
            (uploadsDir sampleDirname ++ [filename sampleTime]) =
          some ⟨headerOps ++ ops, false⟩)) :=
  ⟨by decide, by decide,
    generatePdf_failure_store sampleWorld localEnv sampleDirname sampleTime
      (some unprintableBody) emptyStore 500 "Cannot convert object to primitive value"
      (by decide)⟩

/-! ## The base URL -/

/-- C6, as stated, fails: in the local deployment (nothing set in the environment,
port 5000) the returned `fullUrl` starts with `http://10.3.104.75:5000`, not with
`http://localhost:5000`. -/
theorem generatePdf_local_not_localhost :
    localEnv.NODE_ENV ≠ some "production" ∧ PORT localEnv = "5000" ∧
    (generatePdf sampleWorld localEnv sampleDirname sampleTime sampleRequest
        emptyStore).response =
      some ⟨200, .pdfOk "railway-item-1700000000000.pdf"
        "/uploads/railway-item-1700000000000.pdf" 1700000000000
        "http://10.3.104.75:5000/uploads/railway-item-1700000000000.pdf"⟩ ∧
    "http://10.3.104.75:5000/uploads/railway-item-1700000000000.pdf" ≠
      "http://localhost:5000/uploads/" ++ "railway-item-1700000000000.pdf" := by
  decide

/-- C6, amended: the base URL of `generate-pdf` is computed inside the handler from
the environment: `https://` followed by RENDER_EXTERNAL_HOSTNAME (or
raildash.onrender.com) in production, `http://10.3.104.75:` followed by PORT (or
5000) otherwise; the returned `fullUrl` is that base followed by `/uploads/` and
the file name, so with nothing set it is
`http://10.3.104.75:5000/uploads/` followed by the file name. -/
theorem generatePdf_base_url (w : World) (env : Env) (dirname : Path) (t : Int)
    (req : PdfRequest) (fs : Store) (st : Nat) (fn fp : String) (ts : Int) (url : String)
    (hr : (generatePdf w env dirname t req fs).response = some ⟨st, .pdfOk fn fp ts url⟩) :
    url = (if env.NODE_ENV = some "production" then
            "https://" ++ orDefault env.RENDER_EXTERNAL_HOSTNAME "raildash.onrender.com"
          else "http://10.3.104.75:" ++ orDefault env.PORT "5000") ++ "/uploads/" ++ fn ∧
    (env = localEnv → url = "http://10.3.104.75:5000/uploads/" ++ fn) := by
  obtain ⟨-, hfn, -, -, hurl, -⟩ :=
    generatePdf_pdfOk_inv w env dirname t req fs st fn fp ts url hr
  have hbase : baseUrl env = (if env.NODE_ENV = some "production" then
            "https://" ++ orDefault env.RENDER_EXTERNAL_HOSTNAME "raildash.onrender.com"
          else "http://10.3.104.75:" ++ orDefault env.PORT "5000") := by
    unfold baseUrl HOST PORT
    split
    · rfl
    · rw [String.append_assoc, String.append_assoc, ← String.append_assoc "10.3.104.75" ":",
        ← String.append_assoc "http://"]
      rfl
  rw [← hbase, hurl, hfn]
  refine ⟨rfl, ?_⟩
  intro he
  subst he
  rw [String.append_assoc]
  rfl

theorem generatePdf_base_url_witness :
    (generatePdf sampleWorld localEnv sampleDirname sampleTime sampleRequest
        emptyStore).response =
      some ⟨200, .pdfOk "railway-item-1700000000000.pdf"
        "/uploads/railway-item-1700000000000.pdf" 1700000000000
        "http://10.3.104.75:5000/uploads/railway-item-1700000000000.pdf"⟩ ∧
    "http://10.3.104.75:5000/uploads/railway-item-1700000000000.pdf" =
      "http://10.3.104.75:5000/uploads/" ++ "railway-item-1700000000000.pdf" :=
  ⟨by decide,
    (generatePdf_base_url sampleWorld localEnv sampleDirname sampleTime sampleRequest
      emptyStore 200 "railway-item-1700000000000.pdf"
      "/uploads/railway-item-1700000000000.pdf" 1700000000000
      "http://10.3.104.75:5000/uploads/railway-item-1700000000000.pdf" (by decide)).2 rfl⟩

/-! ## `generate-qr` -/

/-- C7: `POST /api/generate-qr` makes one encoder call, with the `pdfUrl` of the
request unchanged as payload, width 300, margin 2, dark "#000000" and light "#FFFFFF";
when the encoder succeeds the answer is status 200 with that data URL and the
`pdfUrl` echoed, when it fails the answer is status 500 with `success: false` and
the message; in both cases the store is the one before the call. -/
theorem generateQr_passthrough (w : World) (req : QrRequest) (fs : Store) :
    (generateQr w req fs).store = fs ∧
    (generateQr w req fs).encoderCalls =
      [(req.pdfUrl, ⟨300, 2, some ⟨"#000000", "#FFFFFF"⟩⟩)] ∧
    (∀ d, w.toDataURL req.pdfUrl ⟨300, 2, some ⟨"#000000", "#FFFFFF"⟩⟩ = .ok d →
      (generateQr w req fs).response = some ⟨200, .qrOk d req.pdfUrl⟩) ∧
    (∀ e, w.toDataURL req.pdfUrl ⟨300, 2, some ⟨"#000000", "#FFFFFF"⟩⟩ = .error e →
      (generateQr w req fs).response = some ⟨500, .failure e⟩) := by
  unfold generateQr standaloneQrOptions
  refine ⟨?_, ?_, ?_, ?_⟩
  · simp only; split <;> rfl
  · simp only; split <;> rfl
  · intro d hd; simp only [hd]
  · intro e he; simp only [he]

theorem generateQr_passthrough_witness :
    (sampleWorld.toDataURL (some "http://example.com/x.pdf")
        ⟨300, 2, some ⟨"#000000", "#FFFFFF"⟩⟩ = .ok "data:image/png;base64,iVBORw0KGgo=" ∧
      (generateQr sampleWorld ⟨some "http://example.com/x.pdf"⟩ emptyStore).response =
        some ⟨200, .qrOk "data:image/png;base64,iVBORw0KGgo="
          (some "http://example.com/x.pdf")⟩) ∧
    (rejectingWorld.toDataURL (some "http://example.com/x.pdf")
        ⟨300, 2, some ⟨"#000000", "#FFFFFF"⟩⟩ = .error "The amount of data is too big" ∧
      (generateQr rejectingWorld ⟨some "http://example.com/x.pdf"⟩ emptyStore).response =
        some ⟨500, .failure "The amount of data is too big"⟩) :=
  ⟨⟨rfl, (generateQr_passthrough sampleWorld ⟨some "http://example.com/x.pdf"⟩
      emptyStore).2.2.1 _ rfl⟩,
    ⟨rfl, (generateQr_passthrough rejectingWorld ⟨some "http://example.com/x.pdf"⟩
      emptyStore).2.2.2 _ rfl⟩⟩

/-! ## The artifact name -/

/-- C8: for a non-negative clock reading `t` and any two request bodies, the
handler writes under the same path, the uploads directory followed by the single
segment `filename t`; that name is `railway-item-`, one or more digits, `.pdf`,
uses only lower-case letters, digits, '.' and '-', has no '/' and no backslash
(character 92) and does not contain "..". -/
theorem filename_system_generated (w : World) (env : Env) (dirname : Path) (t : Int)
    (r1 r2 : PdfRequest) (fs : Store) (ht : 0 ≤ t) :
    (∃ f1 f2,
      (generatePdf w env dirname t r1 fs).store =
        writeFile fs (uploadsDir dirname ++ [filename t]) f1 ∧
      (generatePdf w env dirname t r2 fs).store =
        writeFile fs (uploadsDir dirname ++ [filename t]) f2) ∧
    pathJoin (uploadsDir dirname) (filename t) = uploadsDir dirname ++ [filename t] ∧
    (∃ ds : List Char, ds ≠ [] ∧ (∀ c ∈ ds, c.isDigit = true) ∧
      filename t = "railway-item-" ++ String.mk ds ++ ".pdf") ∧
    (∀ c ∈ (filename t).data,
      c.isLower = true ∨ c.isDigit = true ∨ c = '.' ∨ c = '-') ∧
    '/' ∉ (filename t).data ∧ Char.ofNat 92 ∉ (filename t).data ∧
    ¬ ("..".data <:+: (filename t).data) := by
  obtain ⟨f1, h1⟩ := generatePdf_store w env dirname t r1 fs
  obtain ⟨f2, h2⟩ := generatePdf_store w env dirname t r2 fs
  refine ⟨⟨f1, f2, h1, h2⟩, writePath_eq dirname t, ?_, filename_chars t,
    filename_no_slash t, filename_no_backslash t, filename_no_dotdot t⟩
  obtain ⟨n, rfl⟩ := Int.eq_ofNat_of_zero_le ht
  refine ⟨decDigits n, decDigits_ne_nil n, decDigits_isDigit n, ?_⟩
  have : toString (n : Int) = String.mk (decDigits n) := by
    rw [← toString_ofNat_data n]
  rw [← this]
  rfl

theorem filename_system_generated_witness :
    (0 : Int) ≤ sampleTime ∧
    ((∃ f1 f2,
      (generatePdf sampleWorld localEnv sampleDirname sampleTime sampleRequest
          emptyStore).store =
        writeFile emptyStore (uploadsDir sampleDirname ++ [filename sampleTime]) f1 ∧
      (generatePdf sampleWorld localEnv sampleDirname sampleTime
          ⟨some "../../etc", some "a/b", none, none, none, none⟩ emptyStore).store =
        writeFile emptyStore (uploadsDir sampleDirname ++ [filename sampleTime]) f2) ∧
    pathJoin (uploadsDir sampleDirname) (filename sampleTime) =
      uploadsDir sampleDirname ++ [filename sampleTime] ∧
    (∃ ds : List Char, ds ≠ [] ∧ (∀ c ∈ ds, c.isDigit = true) ∧
      filename sampleTime = "railway-item-" ++ String.mk ds ++ ".pdf") ∧
    (∀ c ∈ (filename sampleTime).data,
      c.isLower = true ∨ c.isDigit = true ∨ c = '.' ∨ c = '-') ∧
    '/' ∉ (filename sampleTime).data ∧ Char.ofNat 92 ∉ (filename sampleTime).data ∧
    ¬ ("..".data <:+: (filename sampleTime).data)) :=
  ⟨by decide,
    filename_system_generated sampleWorld localEnv sampleDirname sampleTime sampleRequest
      ⟨some "../../etc", some "a/b", none, none, none, none⟩ emptyStore (by decide)⟩

/-- C9: on non-negative clock readings the artifact name is injective: two
readings give the same name, and the same write path, exactly when they are
equal; so requests that read distinct timestamps write under distinct names. -/
theorem filename_injective (dirname : Path) (t1 t2 : Int) (h1 : 0 ≤ t1) (h2 : 0 ≤ t2) :
    (filename t1 = filename t2 ↔ t1 = t2) ∧
    (pathJoin (uploadsDir dirname) (filename t1) =
        pathJoin (uploadsDir dirname) (filename t2) ↔ t1 = t2) := by
  have hname : filename t1 = filename t2 ↔ t1 = t2 :=
    ⟨filename_inj_nonneg t1 t2 h1 h2, fun h => by rw [h]⟩
  refine ⟨hname, ?_⟩
  rw [writePath_eq, writePath_eq]
  constructor
  · intro h
    have h3 := List.append_cancel_left h
    exact hname.mp (List.singleton_inj.mp h3)
  · intro h
    rw [h]

theorem filename_injective_witness :
    (0 : Int) ≤ 1700000000000 ∧ (0 : Int) ≤ 1700000000001 ∧
    ((filename 1700000000000 = filename 1700000000001 ↔
        (1700000000000 : Int) = 1700000000001) ∧
    (pathJoin (uploadsDir sampleDirname) (filename 1700000000000) =
        pathJoin (uploadsDir sampleDirname) (filename 1700000000001) ↔
      (1700000000000 : Int) = 1700000000001)) :=
  ⟨by decide, by decide,
    filename_injective sampleDirname 1700000000000 1700000000001 (by decide) (by decide)⟩

/-! ## Vertical advance of the optional fields -/

/-- C10, as stated, fails: in the document of the sample request, where all three
optional fields are present, the advance after Manufacture Date and after Supply
Date is one half line while the advance after Warranty Period is two half lines,
so no single increment serves all three. -/
theorem advance_not_uniform :
    ((generatePdf sampleWorld localEnv sampleDirname sampleTime sampleRequest
        emptyStore).store samplePath).map (fun f => advanceAfter "Manufacture Date:" f.ops) =
      some (some 1) ∧
    ((generatePdf sampleWorld localEnv sampleDirname sampleTime sampleRequest
        emptyStore).store samplePath).map (fun f => advanceAfter "Supply Date:" f.ops) =
      some (some 1) ∧
    ((generatePdf sampleWorld localEnv sampleDirname sampleTime sampleRequest
        emptyStore).store samplePath).map (fun f => advanceAfter "Warranty Period:" f.ops) =
      some (some 2) := by
  decide

/-- C10, amended: in the document stored by a successful `generate-pdf`, each
optional field that is emitted is followed by an advance that depends on that
field alone: one half line after Manufacture Date, one half line after Supply
Date and two half lines (one line) after Warranty Period; a field that is not
emitted has no such advance. -/
theorem generatePdf_optional_advance (w : World) (env : Env) (dirname : Path) (t : Int)
    (req : PdfRequest) (fs : Store) (st : Nat) (fn fp : String) (ts : Int) (url : String)
    (hr : (generatePdf w env dirname t req fs).response = some ⟨st, .pdfOk fn fp ts url⟩) :
    ∃ f, (generatePdf w env dirname t req fs).store (uploadsDir dirname ++ [fn]) = some f ∧
      advanceAfter "Manufacture Date:" f.ops =
        (if truthy req.manufactureDate then some 1 else none) ∧
      advanceAfter "Supply Date:" f.ops =
        (if truthy req.supplyDate then some 1 else none) ∧
      advanceAfter "Warranty Period:" f.ops =
        (if truthy req.warrantyPeriod then some 2 else none) := by
  obtain ⟨-, -, -, -, -, d, b64, -, -, hstore, -⟩ :=
    generatePdf_pdfOk_inv w env dirname t req fs st fn fp ts url hr
  refine ⟨⟨documentOps w t req (w.base64 b64), true⟩, ?_,
    advanceAfter_documentOps w t req _⟩
  rw [hstore, writeFile_same]

theorem generatePdf_optional_advance_witness :
    (generatePdf sampleWorld localEnv sampleDirname sampleTime
        { sampleRequest with supplyDate := none } emptyStore).response
      = some ⟨200, .pdfOk "railway-item-1700000000000.pdf"
          "/uploads/railway-item-1700000000000.pdf" 1700000000000
          "http://10.3.104.75:5000/uploads/railway-item-1700000000000.pdf"⟩ ∧
    ∃ f, (generatePdf sampleWorld localEnv sampleDirname sampleTime
        { sampleRequest with supplyDate := none } emptyStore).store
          (uploadsDir sampleDirname ++ ["railway-item-1700000000000.pdf"]) = some f ∧
      advanceAfter "Manufacture Date:" f.ops =
        (if truthy ({ sampleRequest with supplyDate := none } : PdfRequest).manufactureDate
          then some 1 else none) ∧
      advanceAfter "Supply Date:" f.ops =
        (if truthy ({ sampleRequest with supplyDate := none } : PdfRequest).supplyDate
          then some 1 else none) ∧
      advanceAfter "Warranty Period:" f.ops =
        (if truthy ({ sampleRequest with supplyDate := none } : PdfRequest).warrantyPeriod
          then some 2 else none) :=
  ⟨by decide,
    generatePdf_optional_advance sampleWorld localEnv sampleDirname sampleTime
      { sampleRequest with supplyDate := none } emptyStore 200
      "railway-item-1700000000000.pdf" "/uploads/railway-item-1700000000000.pdf"
      1700000000000 "http://10.3.104.75:5000/uploads/railway-item-1700000000000.pdf"
      (by decide)⟩

end Raildash
